import Mathlib

/-
Verification of the oort simulation core against its specification.

The development shallowly embeds the Rust sources:
  * src/script/rhai/radar.rs   — the radar `scan` query
  * src/simulation/scenario.rs — the scenario lifecycle (Status, Tutorial02/03,
                                 add_walls, load)
  * src/ui/mod.rs              — the render/driver loop
  * tests/bullet_test.rs       — the bullet-hit integration test

Machine floating point (f64) is embedded as ℚ.  Euclidean distances, which the
code obtains with a square root and then compares, are embedded as squared
distances compared against squared thresholds: on non-negative reals the square
root is strictly monotone, so `sqrt d2 > 3000` iff `d2 > 3000^2` and
`sqrt d2 < sqrt e2` iff `d2 < e2`; the branch structure of the code is
preserved exactly.
-/

namespace Oort

/-- Position or velocity vector in the plane (nalgebra Vector2<f64>, embedded
over ℚ). -/
abbrev Vec2 : Type := ℚ × ℚ

/-- Squared Euclidean distance between two points; stands for the square of
nalgebra::distance in radar.rs (see the header comment for why squares). -/
def dist2 (a b : Vec2) : ℚ :=
  (a.1 - b.1) ^ 2 + (a.2 - b.2) ^ 2

/-- The data of one ship that `scan` reads: its team, position and velocity
(ShipAccessor::data().team, ::position(), ::velocity()). -/
structure Ship where
  team : Int
  pos : Vec2
  vel : Vec2
deriving DecidableEq

/-- ScanResult from radar.rs: found flag plus position and velocity of the
detected ship. -/
structure ScanResult where
  found : Bool
  position : Vec2
  velocity : Vec2
deriving DecidableEq

/-- MAX_RADAR_DISTANCE from radar.rs. -/
def maxRadarDistance : ℚ := 3000

/-- Initial accumulator of the `scan` loop: result with found = false and
zero vectors, best_distance (here: best squared distance) 0.0. -/
def scanInit : ScanResult × ℚ :=
  (⟨false, (0, 0), (0, 0)⟩, 0)

/-- One iteration of the `for &other in sim.ships.iter()` loop of `scan`
(radar.rs lines 38–55): skip same-team ships, skip ships beyond
MAX_RADAR_DISTANCE, and replace the current best when nothing was found yet or
the candidate is strictly closer.  The accumulator's second component carries
best_distance, as a squared distance. -/
def scanStep (ownTeam : Int) (ownPos : Vec2) (acc : ScanResult × ℚ)
    (other : Ship) : ScanResult × ℚ :=
  if other.team = ownTeam then acc
  else
    let d := dist2 ownPos other.pos
    if maxRadarDistance ^ 2 < d then acc
    else if acc.1.found = false ∨ d < acc.2 then (⟨true, other.pos, other.vel⟩, d)
    else acc

/-- The `scan` loop folded over the ship list, returning the final result and
best_distance accumulator. -/
def scanAcc (ownTeam : Int) (ownPos : Vec2) (ships : List Ship) : ScanResult × ℚ :=
  ships.foldl (scanStep ownTeam ownPos) scanInit

/-- `scan` from radar.rs: the querying ship's team and position are read from
the simulation, then the loop runs over all live ships (the querying ship
itself is skipped by the same-team test). -/
def scan (ownTeam : Int) (ownPos : Vec2) (ships : List Ship) : ScanResult :=
  (scanAcc ownTeam ownPos ships).1

/-- A ship qualifies as a radar candidate: on a different team and within
MAX_RADAR_DISTANCE (squared comparison). -/
def qualifies (ownTeam : Int) (ownPos : Vec2) (s : Ship) : Prop :=
  s.team ≠ ownTeam ∧ dist2 ownPos s.pos ≤ maxRadarDistance ^ 2

/-- Exact characterisation of the scan loop's accumulator: either no candidate
qualified and the accumulator is untouched, or the list splits around the
returned ship, which qualifies, is strictly closer than every qualifying ship
before it and at least as close as every qualifying ship after it. -/
def ScanOutcome (ownTeam : Int) (ownPos : Vec2) (l : List Ship)
    (r : ScanResult × ℚ) : Prop :=
  (r = scanInit ∧ ∀ s ∈ l, ¬ qualifies ownTeam ownPos s)
  ∨ (∃ l1 s l2, l = l1 ++ s :: l2 ∧ qualifies ownTeam ownPos s
      ∧ r.1.found = true ∧ r.1.position = s.pos ∧ r.1.velocity = s.vel
      ∧ r.2 = dist2 ownPos s.pos
      ∧ (∀ t ∈ l1, qualifies ownTeam ownPos t →
          dist2 ownPos s.pos < dist2 ownPos t.pos)
      ∧ (∀ t ∈ l2, qualifies ownTeam ownPos t →
          dist2 ownPos s.pos ≤ dist2 ownPos t.pos))

lemma scanStep_not_qual (ownTeam : Int) (ownPos : Vec2) (acc : ScanResult × ℚ)
    (x : Ship) (hx : ¬ qualifies ownTeam ownPos x) :
    scanStep ownTeam ownPos acc x = acc := by
  unfold scanStep qualifies at *
  by_cases ht : x.team = ownTeam
  · simp [ht]
  · simp only [ht, if_false]
    have hd : maxRadarDistance ^ 2 < dist2 ownPos x.pos := by
      push_neg at hx
      exact hx ht
    simp [hd]

lemma scanStep_qual (ownTeam : Int) (ownPos : Vec2) (acc : ScanResult × ℚ)
    (x : Ship) (hx : qualifies ownTeam ownPos x) :
    scanStep ownTeam ownPos acc x =
      if acc.1.found = false ∨ dist2 ownPos x.pos < acc.2 then
        (⟨true, x.pos, x.vel⟩, dist2 ownPos x.pos)
      else acc := by
  obtain ⟨ht, hd⟩ := hx
  unfold scanStep
  simp [ht, not_lt.mpr hd]

lemma scanAcc_spec (ownTeam : Int) (ownPos : Vec2) (l : List Ship) :
    ScanOutcome ownTeam ownPos l (scanAcc ownTeam ownPos l) := by
  induction l using List.reverseRecOn with
  | nil =>
    left
    constructor
    · rfl
    · intro s hs; cases hs
  | append_singleton l x ih =>
    have hfold : scanAcc ownTeam ownPos (l ++ [x]) =
        scanStep ownTeam ownPos (scanAcc ownTeam ownPos l) x := by
      unfold scanAcc
      simp [List.foldl_append]
    by_cases hq : qualifies ownTeam ownPos x
    · rcases ih with ⟨hacc, hnone⟩ | ⟨l1, s, l2, hsplit, hqs, hfound, hpos, hvel, hbd, hbefore, hafter⟩
      · -- nothing qualified in l; x becomes the first found candidate
        have hacc2 : scanAcc ownTeam ownPos (l ++ [x]) =
            (⟨true, x.pos, x.vel⟩, dist2 ownPos x.pos) := by
          rw [hfold, hacc, scanStep_qual ownTeam ownPos _ x hq]
          simp [scanInit]
        right
        refine ⟨l, x, [], by simp, hq, ?_, ?_, ?_, ?_, ?_, ?_⟩
        · rw [hacc2]
        · rw [hacc2]
        · rw [hacc2]
        · rw [hacc2]
        · intro t ht hqt
          exact absurd hqt (hnone t ht)
        · intro t ht
          cases ht
      · -- some s already found; x replaces it only when strictly closer
        by_cases hlt : dist2 ownPos x.pos < (scanAcc ownTeam ownPos l).2
        · have hacc2 : scanAcc ownTeam ownPos (l ++ [x]) =
              (⟨true, x.pos, x.vel⟩, dist2 ownPos x.pos) := by
            rw [hfold, scanStep_qual ownTeam ownPos _ x hq]
            simp [hlt]
          right
          rw [hbd] at hlt
          refine ⟨l1 ++ s :: l2, x, [], by simp [hsplit], hq, ?_, ?_, ?_, ?_, ?_, ?_⟩
          · rw [hacc2]
          · rw [hacc2]
          · rw [hacc2]
          · rw [hacc2]
          · intro t ht hqt
            rcases (List.mem_append.mp ht) with h1 | h2
            · exact lt_trans hlt (hbefore t h1 hqt)
            · rcases List.mem_cons.mp h2 with rfl | h3
              · exact hlt
              · exact lt_of_lt_of_le hlt (hafter t h3 hqt)
          · intro t ht
            cases ht
        · have hacc2 : scanAcc ownTeam ownPos (l ++ [x]) = scanAcc ownTeam ownPos l := by
            rw [hfold, scanStep_qual ownTeam ownPos _ x hq]
            simp [hlt, hfound]
          right
          rw [hacc2]
          refine ⟨l1, s, l2 ++ [x], by simp [hsplit], hqs, hfound, hpos, hvel, hbd, hbefore, ?_⟩
          intro t ht hqt
          rcases List.mem_append.mp ht with h1 | h2
          · exact hafter t h1 hqt
          · rcases List.mem_singleton.mp h2 with rfl
            rw [hbd] at hlt
            exact not_lt.mp hlt
    · -- x does not qualify: the accumulator is unchanged
      rw [hfold, scanStep_not_qual ownTeam ownPos _ x hq]
      rcases ih with ⟨hacc, hnone⟩ | ⟨l1, s, l2, hsplit, hqs, hfound, hpos, hvel, hbd, hbefore, hafter⟩
      · left
        refine ⟨hacc, ?_⟩
        intro s hs
        rcases List.mem_append.mp hs with h1 | h2
        · exact hnone s h1
        · rcases List.mem_singleton.mp h2 with rfl
          exact hq
      · right
        refine ⟨l1, s, l2 ++ [x], by simp [hsplit], hqs, hfound, hpos, hvel, hbd, hbefore, ?_⟩
        intro t ht hqt
        rcases List.mem_append.mp ht with h1 | h2
        · exact hafter t h1 hqt
        · rcases List.mem_singleton.mp h2 with rfl
          exact absurd hqt hq

lemma scan_found_iff (ownTeam : Int) (ownPos : Vec2) (ships : List Ship) :
    (scan ownTeam ownPos ships).found = true ↔
      ∃ s ∈ ships, qualifies ownTeam ownPos s := by
  constructor
  · intro hf
    rcases scanAcc_spec ownTeam ownPos ships with ⟨hacc, _⟩ | ⟨l1, s, l2, hsplit, hqs, _, _, _, _, _, _⟩
    · exfalso
      unfold scan at hf
      rw [hacc] at hf
      simp [scanInit] at hf
    · exact ⟨s, by simp [hsplit], hqs⟩
  · intro ⟨s, hs, hqs⟩
    rcases scanAcc_spec ownTeam ownPos ships with ⟨_, hnone⟩ | ⟨_, _, _, _, _, hfound, _⟩
    · exact absurd hqs (hnone s hs)
    · exact hfound

/-- C1: scan() never returns a same-team ship, never returns a ship whose
distance from the querying ship exceeds MAX_RADAR_DISTANCE = 3000.0, and
whenever at least one enemy ship is in range it returns, with found = true,
the position and velocity of a closest in-range enemy ship.  Distances are
compared squared (see header). -/
theorem scan_closest_enemy_correct (ownTeam : Int) (ownPos : Vec2)
    (ships : List Ship) :
    ((scan ownTeam ownPos ships).found = true →
      ∃ s ∈ ships, s.team ≠ ownTeam ∧ dist2 ownPos s.pos ≤ maxRadarDistance ^ 2 ∧
        (scan ownTeam ownPos ships).position = s.pos ∧
        (scan ownTeam ownPos ships).velocity = s.vel ∧
        ∀ t ∈ ships, t.team ≠ ownTeam → dist2 ownPos t.pos ≤ maxRadarDistance ^ 2 →
          dist2 ownPos s.pos ≤ dist2 ownPos t.pos)
    ∧ ((∃ s ∈ ships, s.team ≠ ownTeam ∧ dist2 ownPos s.pos ≤ maxRadarDistance ^ 2) →
      (scan ownTeam ownPos ships).found = true) := by
  constructor
  · intro hf
    rcases scanAcc_spec ownTeam ownPos ships with ⟨hacc, _⟩ |
        ⟨l1, s, l2, hsplit, hqs, hfound, hpos, hvel, _, hbefore, hafter⟩
    · exfalso
      unfold scan at hf
      rw [hacc] at hf
      simp [scanInit] at hf
    · refine ⟨s, by simp [hsplit], hqs.1, hqs.2, hpos, hvel, ?_⟩
      intro t ht hteam hdist
      rw [hsplit] at ht
      rcases List.mem_append.mp ht with h1 | h2
      · exact le_of_lt (hbefore t h1 ⟨hteam, hdist⟩)
      · rcases List.mem_cons.mp h2 with rfl | h3
        · exact le_refl _
        · exact hafter t h3 ⟨hteam, hdist⟩
  · intro ⟨s, hs, hteam, hdist⟩
    exact (scan_found_iff ownTeam ownPos ships).mpr ⟨s, hs, hteam, hdist⟩

/-- Witness for C1 at a concrete input: one enemy at distance 100 is in range,
so the scan reports found = true. -/
theorem scan_closest_enemy_correct_witness :
    (scan 0 (0, 0) [⟨1, (100, 0), (3, 4)⟩]).found = true :=
  (scan_closest_enemy_correct 0 (0, 0) [⟨1, (100, 0), (3, 4)⟩]).2
    ⟨⟨1, (100, 0), (3, 4)⟩, by simp, by decide, by norm_num [dist2, maxRadarDistance]⟩

/-- C6: when every ship is either on the querying ship's team or beyond
MAX_RADAR_DISTANCE, scan() returns a result with found = false (the normal
no-candidate outcome, not an error). -/
theorem scan_no_enemy_in_range_not_found (ownTeam : Int) (ownPos : Vec2)
    (ships : List Ship)
    (h : ∀ s ∈ ships, s.team = ownTeam ∨ maxRadarDistance ^ 2 < dist2 ownPos s.pos) :
    (scan ownTeam ownPos ships).found = false := by
  by_contra hne
  have hf : (scan ownTeam ownPos ships).found = true := by
    cases hfd : (scan ownTeam ownPos ships).found
    · exact absurd hfd hne
    · rfl
  obtain ⟨s, hs, hteam, hdist⟩ := (scan_found_iff ownTeam ownPos ships).mp hf
  rcases h s hs with h1 | h2
  · exact hteam h1
  · exact absurd hdist (not_le.mpr h2)

/-- Witness for C6 at a concrete input: a same-team ship and an enemy at
distance 4000 > 3000 lead to found = false. -/
theorem scan_no_enemy_in_range_not_found_witness :
    (scan 0 (0, 0) [⟨0, (1, 2), (0, 0)⟩, ⟨1, (4000, 0), (0, 0)⟩]).found = false := by
  refine scan_no_enemy_in_range_not_found 0 (0, 0) _ ?_
  intro s hs
  rcases List.mem_cons.mp hs with rfl | h2
  · left; rfl
  · rcases List.mem_singleton.mp h2 with rfl
    right
    norm_num [dist2, maxRadarDistance]

/-- C10: when several in-range enemies tie at the minimal distance, scan()
returns the one occurring first in iteration order, because a later candidate
replaces the current best only when its distance is strictly smaller. -/
theorem scan_tie_first_in_order (ownTeam : Int) (ownPos : Vec2)
    (l1 : List Ship) (s : Ship) (l2 : List Ship)
    (hq : qualifies ownTeam ownPos s)
    (hbefore : ∀ t ∈ l1, qualifies ownTeam ownPos t →
      dist2 ownPos s.pos < dist2 ownPos t.pos)
    (hafter : ∀ t ∈ l2, qualifies ownTeam ownPos t →
      dist2 ownPos s.pos ≤ dist2 ownPos t.pos) :
    scan ownTeam ownPos (l1 ++ s :: l2) = ⟨true, s.pos, s.vel⟩
    ∧ ∀ (acc : ScanResult × ℚ) (other : Ship), acc.1.found = true →
        ¬ dist2 ownPos other.pos < acc.2 →
        scanStep ownTeam ownPos acc other = acc := by
  constructor
  · rcases scanAcc_spec ownTeam ownPos (l1 ++ s :: l2) with ⟨_, hnone⟩ |
        ⟨L1, s2, L2, hsplit, hqs2, hfound, hpos, hvel, _, hb2, ha2⟩
    · exact absurd hq (hnone s (by simp))
    · have hs2 : s2 = s := by
        rcases List.append_eq_append_iff.mp hsplit with ⟨a, haL, hal⟩ | ⟨c, hcl, hcL⟩
        · cases a with
          | nil =>
            simp at hal
            exact (hal.1).symm
          | cons hd tl =>
            exfalso
            have hshd : s = hd ∧ l2 = tl ++ s2 :: L2 := by
              constructor
              · exact (List.cons_eq_cons.mp hal).1
              · exact (List.cons_eq_cons.mp hal).2
            have hsL1 : s ∈ L1 := by
              rw [haL, hshd.1]
              simp
            have h1 : dist2 ownPos s2.pos < dist2 ownPos s.pos := hb2 s hsL1 hq
            have hs2l2 : s2 ∈ l2 := by
              rw [hshd.2]
              simp
            have h2 : dist2 ownPos s.pos ≤ dist2 ownPos s2.pos := hafter s2 hs2l2 hqs2
            exact absurd (lt_of_lt_of_le h1 h2) (lt_irrefl _)
        · cases c with
          | nil =>
            simp at hcL
            exact hcL.1
          | cons hd tl =>
            exfalso
            have hshd : s2 = hd ∧ L2 = tl ++ s :: l2 := by
              constructor
              · exact (List.cons_eq_cons.mp hcL).1
              · exact (List.cons_eq_cons.mp hcL).2
            have hs2l1 : s2 ∈ l1 := by
              rw [hcl, hshd.1]
              simp
            have h1 : dist2 ownPos s.pos < dist2 ownPos s2.pos := hbefore s2 hs2l1 hqs2
            have hsL2 : s ∈ L2 := by
              rw [hshd.2]
              simp
            have h2 : dist2 ownPos s2.pos ≤ dist2 ownPos s.pos := ha2 s hsL2 hq
            exact absurd (lt_of_lt_of_le h1 h2) (lt_irrefl _)
      unfold scan
      rcases hres : (scanAcc ownTeam ownPos (l1 ++ s :: l2)).1 with ⟨f, p, v⟩
      rw [hres] at hfound hpos hvel
      simp only at hfound hpos hvel
      rw [hfound, hpos, hvel, hs2]
  · intro acc other hfo hnlt
    unfold scanStep
    by_cases ht : other.team = ownTeam
    · simp [ht]
    · simp [ht, hfo, hnlt]

/-- Witness for C10 at a concrete input: two enemies tie at distance 100; the
scan returns the first one in iteration order (velocity (1, 0), not (2, 0)). -/
theorem scan_tie_first_in_order_witness :
    scan 0 (0, 0)
      ([⟨1, (200, 0), (0, 0)⟩] ++ ⟨1, (100, 0), (1, 0)⟩ :: [⟨1, (0, 100), (2, 0)⟩])
      = ⟨true, (100, 0), (1, 0)⟩ :=
  (scan_tie_first_in_order 0 (0, 0) [⟨1, (200, 0), (0, 0)⟩] ⟨1, (100, 0), (1, 0)⟩
    [⟨1, (0, 100), (2, 0)⟩]
    (by constructor
        · decide
        · norm_num [dist2, maxRadarDistance])
    (by intro t ht _
        rcases List.mem_singleton.mp ht with rfl
        norm_num [dist2])
    (by intro t ht _
        rcases List.mem_singleton.mp ht with rfl
        norm_num [dist2])).1

/-- The simulation state reachable from a radar query: the list of live ship
handles (sim.ships) and the per-handle ship data (sim.ship(handle)). -/
structure SimState where
  shipHandles : List Nat
  shipData : Nat → Ship

/-- Read of a ship's team through the simulation (ShipAccessor data().team);
returns the value together with the (unchanged) state it was read from. -/
def readShipTeam (h : Nat) (st : SimState) : Int × SimState :=
  ((st.shipData h).team, st)

/-- Read of a ship's position through the simulation. -/
def readShipPos (h : Nat) (st : SimState) : Vec2 × SimState :=
  ((st.shipData h).pos, st)

/-- Read of a ship's velocity through the simulation. -/
def readShipVel (h : Nat) (st : SimState) : Vec2 × SimState :=
  ((st.shipData h).vel, st)

/-- Read of the live ship handle list (sim.ships.iter()). -/
def readShips (st : SimState) : List Nat × SimState :=
  (st.shipHandles, st)

/-- One loop iteration of `scan` with the simulation state threaded through
every read, in source order: team, then position, then (only when the
candidate is stored) velocity. -/
def scanRunStep (ownTeam : Int) (ownPos : Vec2)
    (acc : (ScanResult × ℚ) × SimState) (other : Nat) : (ScanResult × ℚ) × SimState :=
  let (otherTeam, s1) := readShipTeam other acc.2
  if otherTeam = ownTeam then (acc.1, s1)
  else
    let (otherPos, s2) := readShipPos other s1
    let d := dist2 ownPos otherPos
    if maxRadarDistance ^ 2 < d then (acc.1, s2)
    else if acc.1.1.found = false ∨ d < acc.1.2 then
      let (otherVel, s3) := readShipVel other s2
      ((⟨true, otherPos, otherVel⟩, d), s3)
    else (acc.1, s2)

/-- `scan` with the simulation state threaded through every access it makes,
mirroring that the Rust function holds a mutable pointer to the Simulation. -/
def scanRun (h : Nat) (st0 : SimState) : ScanResult × SimState :=
  let (ownTeam, st1) := readShipTeam h st0
  let (ownPos, st2) := readShipPos h st1
  let (handles, st3) := readShips st2
  let r := handles.foldl (scanRunStep ownTeam ownPos) (scanInit, st3)
  (r.1.1, r.2)

lemma scanRunStep_eq (ownTeam : Int) (ownPos : Vec2) (acc : ScanResult × ℚ)
    (st : SimState) (other : Nat) :
    scanRunStep ownTeam ownPos (acc, st) other =
      (scanStep ownTeam ownPos acc (st.shipData other), st) := by
  simp only [scanRunStep, scanStep, readShipTeam, readShipPos, readShipVel]
  split_ifs <;> rfl

lemma scanRun_foldl (ownTeam : Int) (ownPos : Vec2) (st : SimState) :
    ∀ (l : List Nat) (acc : ScanResult × ℚ),
      l.foldl (scanRunStep ownTeam ownPos) (acc, st) =
        ((l.map st.shipData).foldl (scanStep ownTeam ownPos) acc, st) := by
  intro l
  induction l with
  | nil => intro acc; rfl
  | cons x xs ih =>
    intro acc
    simp only [List.foldl_cons, List.map_cons, scanRunStep_eq]
    exact ih _

/-- C7: a radar query has no side effect on the simulation: the state after
`scan` equals the state before, and the returned value is the pure function
of the ship data that `scan` computes. -/
theorem scan_leaves_sim_unchanged (h : Nat) (st : SimState) :
    (scanRun h st).2 = st ∧
    (scanRun h st).1 =
      scan (st.shipData h).team (st.shipData h).pos (st.shipHandles.map st.shipData) := by
  unfold scanRun readShipTeam readShipPos readShips
  simp only [scanRun_foldl]
  constructor <;> trivial

/-- Scenario status from scenario.rs. -/
inductive Status where
  | Running : Status
  | Finished : Status
deriving DecidableEq

/-- The first live ship, sim.ships.iter().next() resolved through the ship
accessor. -/
def firstShip (st : SimState) : Option Ship :=
  st.shipHandles.head?.map st.shipData

/-- Squared magnitude of a vector; stands for the square of .magnitude() in
scenario.rs (see the header comment for why squares). -/
def mag2 (v : Vec2) : ℚ :=
  v.1 ^ 2 + v.2 ^ 2

/-- Default Scenario::status implementation (scenario.rs lines 31–33):
always Running. -/
def scenarioDefaultStatus (_ : SimState) : Status :=
  Status.Running

/-- Common body of Tutorial02::tick and Tutorial03::tick: when there is a
first ship, increment the on_target_ticks counter if the ship is within 50.0
of the target with velocity magnitude below 1.0, otherwise reset it to 0;
when there is no ship the counter is left alone.  Both magnitudes are
compared squared. -/
def holdTickCount (target : Vec2) (t : Int) (st : SimState) : Int :=
  match firstShip st with
  | none => t
  | some sh =>
    if dist2 sh.pos target < 50 ^ 2 ∧ mag2 sh.vel < 1 ^ 2 then t + 1 else 0

/-- Scenario-owned state of Tutorial02. -/
structure Tutorial02State where
  onTargetTicks : Int
deriving DecidableEq

/-- The fixed target point of Tutorial02 (vector![200.0, 0.0]). -/
def tutorial02Target : Vec2 := (200, 0)

/-- Tutorial02::tick (scenario.rs lines 275–286). -/
def tutorial02Tick (sc : Tutorial02State) (st : SimState) : Tutorial02State :=
  ⟨holdTickCount tutorial02Target sc.onTargetTicks st⟩

/-- Tutorial02::status (scenario.rs lines 288–294): Finished once
on_target_ticks exceeds 120; ignores the Simulation argument. -/
def tutorial02Status (sc : Tutorial02State) (_ : SimState) : Status :=
  if sc.onTargetTicks > 120 then Status.Finished else Status.Running

/-- Scenario-owned state of Tutorial03: the streak counter and the randomly
drawn target point. -/
structure Tutorial03State where
  onTargetTicks : Int
  target : Vec2
deriving DecidableEq

/-- Tutorial03::tick (scenario.rs lines 387–398). -/
def tutorial03Tick (sc : Tutorial03State) (st : SimState) : Tutorial03State :=
  ⟨holdTickCount sc.target sc.onTargetTicks st, sc.target⟩

/-- Tutorial03::status (scenario.rs lines 400–406): Finished once
on_target_ticks exceeds 120; ignores the Simulation argument. -/
def tutorial03Status (sc : Tutorial03State) (_ : SimState) : Status :=
  if sc.onTargetTicks > 120 then Status.Finished else Status.Running

/-- Fold of Tutorial02::tick over a sequence of per-tick simulation states. -/
def tutorial02Run (sc : Tutorial02State) (l : List SimState) : Tutorial02State :=
  l.foldl tutorial02Tick sc

/-- Fold of Tutorial03::tick over a sequence of per-tick simulation states. -/
def tutorial03Run (sc : Tutorial03State) (l : List SimState) : Tutorial03State :=
  l.foldl tutorial03Tick sc

/-- Boolean version of the on-target condition of the hold-position
tutorials: there is a first ship, within 50.0 of the target and slower
than 1.0 (squared comparisons). -/
def onTarget (target : Vec2) (st : SimState) : Bool :=
  match firstShip st with
  | none => false
  | some sh => decide (dist2 sh.pos target < 50 ^ 2 ∧ mag2 sh.vel < 1 ^ 2)

/-- Length of the longest all-on-target prefix of a (reversed) state list. -/
def streakAux (target : Vec2) : List SimState → Nat
  | [] => 0
  | st :: rest => if onTarget target st then 1 + streakAux target rest else 0

/-- Length of the longest all-on-target suffix of a state list: the number of
consecutive most-recent ticks the ship has been on target. -/
def streak (target : Vec2) (l : List SimState) : Nat :=
  streakAux target l.reverse

lemma holdTickCount_onTarget (target : Vec2) (t : Int) (st : SimState)
    (hs : st.shipHandles ≠ []) :
    holdTickCount target t st = if onTarget target st then t + 1 else 0 := by
  unfold holdTickCount onTarget firstShip
  cases hh : st.shipHandles with
  | nil => exact absurd hh hs
  | cons a as =>
    simp only [hh, List.head?_cons, Option.map_some]
    by_cases hcond : dist2 (st.shipData a).pos target < 50 ^ 2 ∧ mag2 (st.shipData a).vel < 1 ^ 2
    · simp [hcond]
    · simp [hcond]

lemma holdRun_eq_streak (target : Vec2) :
    ∀ l : List SimState, (∀ st ∈ l, st.shipHandles ≠ []) →
      l.foldl (fun t st => holdTickCount target t st) 0 = (streak target l : Int) := by
  intro l
  induction l using List.reverseRecOn with
  | nil => intro _; rfl
  | append_singleton l x ih =>
    intro hall
    have hx : x.shipHandles ≠ [] := hall x (by simp)
    have hl : ∀ st ∈ l, st.shipHandles ≠ [] := fun st hst => hall st (by simp [hst])
    rw [List.foldl_append]
    simp only [List.foldl_cons, List.foldl_nil]
    rw [holdTickCount_onTarget target _ x hx, ih hl]
    unfold streak
    rw [List.reverse_append]
    simp only [List.reverse_singleton, List.singleton_append, streakAux]
    cases ho : onTarget target x with
    | false => simp [ho]
    | true =>
      simp only [ho, if_true]
      push_cast
      have hfix : ([] : List SimState).append l.reverse = l.reverse := rfl
      rw [hfix]
      omega

lemma streakAux_le_length (target : Vec2) :
    ∀ r : List SimState, streakAux target r ≤ r.length := by
  intro r
  induction r with
  | nil => exact le_refl 0
  | cons s rest ih =>
    unfold streakAux
    cases ho : onTarget target s with
    | false => simp [ho]
    | true =>
      simp only [ho, if_true, List.length_cons]
      omega

lemma streakAux_take_onTarget (target : Vec2) :
    ∀ (r : List SimState) (m : Nat), m ≤ streakAux target r →
      ∀ st ∈ r.take m, onTarget target st = true := by
  intro r
  induction r with
  | nil =>
    intro m hm st hst
    simp at hst
  | cons s rest ih =>
    intro m hm st hst
    unfold streakAux at hm
    cases ho : onTarget target s with
    | true =>
      simp only [ho, if_true] at hm
      cases m with
      | zero => simp at hst
      | succ m' =>
        rw [List.take_succ_cons] at hst
        rcases List.mem_cons.mp hst with rfl | h2
        · exact ho
        · exact ih m' (by omega) st h2
    | false =>
      simp only [ho, if_false] at hm
      have hm0 : m = 0 := Nat.le_zero.mp hm
      subst hm0
      simp at hst

lemma streak_suffix (target : Vec2) (l : List SimState) (m : Nat)
    (hm : m ≤ streak target l) :
    ∃ l1 l2, l = l1 ++ l2 ∧ l2.length = m ∧ ∀ st ∈ l2, onTarget target st = true := by
  have hlen : m ≤ l.reverse.length := le_trans hm (streakAux_le_length target l.reverse)
  refine ⟨(l.reverse.drop m).reverse, (l.reverse.take m).reverse, ?_, ?_, ?_⟩
  · rw [← List.reverse_append, List.take_append_drop, List.reverse_reverse]
  · rw [List.length_reverse, List.length_take]
    omega
  · intro st hst
    rw [List.mem_reverse] at hst
    exact streakAux_take_onTarget target l.reverse m hm st hst

lemma tutorial02Run_counter :
    ∀ (l : List SimState) (sc : Tutorial02State),
      (tutorial02Run sc l).onTargetTicks =
        l.foldl (fun t st => holdTickCount tutorial02Target t st) sc.onTargetTicks := by
  intro l
  induction l with
  | nil => intro sc; rfl
  | cons x xs ih =>
    intro sc
    simp only [tutorial02Run, List.foldl_cons]
    exact ih (tutorial02Tick sc x)

lemma tutorial03Run_counter :
    ∀ (l : List SimState) (sc : Tutorial03State),
      (tutorial03Run sc l).target = sc.target ∧
      (tutorial03Run sc l).onTargetTicks =
        l.foldl (fun t st => holdTickCount sc.target t st) sc.onTargetTicks := by
  intro l
  induction l with
  | nil => intro sc; exact ⟨rfl, rfl⟩
  | cons x xs ih =>
    intro sc
    simp only [tutorial03Run, List.foldl_cons]
    exact ih (tutorial03Tick sc x)

/-- C2: in the hold-position tutorials the status becomes Finished exactly
when the most recent consecutive on-target streak exceeds the 120-tick
threshold (that is, after 121 consecutive ticks within 50.0 of the target at
velocity magnitude below 1.0), and the streak counter resets to zero on any
tick where the condition fails; a streak above the threshold really consists
of 121 consecutive on-target simulation states. -/
theorem hold_position_finish_behavior :
    (∀ (sc : Tutorial02State) (st : SimState) (sh : Ship),
        firstShip st = some sh →
        ¬ (dist2 sh.pos tutorial02Target < 50 ^ 2 ∧ mag2 sh.vel < 1 ^ 2) →
        (tutorial02Tick sc st).onTargetTicks = 0)
    ∧ (∀ (l : List SimState) (st0 : SimState), (∀ st ∈ l, st.shipHandles ≠ []) →
        (tutorial02Status (tutorial02Run ⟨0⟩ l) st0 = Status.Finished ↔
          120 < streak tutorial02Target l))
    ∧ (∀ (sc : Tutorial03State) (st : SimState) (sh : Ship),
        firstShip st = some sh →
        ¬ (dist2 sh.pos sc.target < 50 ^ 2 ∧ mag2 sh.vel < 1 ^ 2) →
        (tutorial03Tick sc st).onTargetTicks = 0)
    ∧ (∀ (target : Vec2) (l : List SimState) (st0 : SimState),
        (∀ st ∈ l, st.shipHandles ≠ []) →
        (tutorial03Status (tutorial03Run ⟨0, target⟩ l) st0 = Status.Finished ↔
          120 < streak target l))
    ∧ (∀ (target : Vec2) (l : List SimState), 120 < streak target l →
        ∃ l1 l2, l = l1 ++ l2 ∧ l2.length = 121 ∧
          ∀ st ∈ l2, onTarget target st = true) := by
  refine ⟨?_, ?_, ?_, ?_, ?_⟩
  · intro sc st sh hfs hcond
    show holdTickCount tutorial02Target sc.onTargetTicks st = 0
    unfold holdTickCount
    rw [hfs]
    exact if_neg hcond
  · intro l st0 hall
    have hc : (tutorial02Run ⟨0⟩ l).onTargetTicks = (streak tutorial02Target l : Int) :=
      (tutorial02Run_counter l ⟨0⟩).trans (holdRun_eq_streak tutorial02Target l hall)
    unfold tutorial02Status
    rw [hc]
    constructor
    · intro h
      by_cases hgt : (120 : Int) < (streak tutorial02Target l : Int)
      · exact_mod_cast hgt
      · rw [if_neg hgt] at h
        exact absurd h (by decide)
    · intro h
      rw [if_pos (by exact_mod_cast h)]
  · intro sc st sh hfs hcond
    show holdTickCount sc.target sc.onTargetTicks st = 0
    unfold holdTickCount
    rw [hfs]
    exact if_neg hcond
  · intro target l st0 hall
    have h3 := tutorial03Run_counter l ⟨0, target⟩
    have hc : (tutorial03Run ⟨0, target⟩ l).onTargetTicks = (streak target l : Int) :=
      h3.2.trans (holdRun_eq_streak target l hall)
    unfold tutorial03Status
    rw [hc]
    constructor
    · intro h
      by_cases hgt : (120 : Int) < (streak target l : Int)
      · exact_mod_cast hgt
      · rw [if_neg hgt] at h
        exact absurd h (by decide)
    · intro h
      rw [if_pos (by exact_mod_cast h)]
  · intro target l h
    exact streak_suffix target l 121 h

lemma streakAux_replicate (target : Vec2) (st : SimState)
    (h : onTarget target st = true) :
    ∀ n, streakAux target (List.replicate n st) = n := by
  intro n
  induction n with
  | zero => rfl
  | succ k ih =>
    rw [List.replicate_succ]
    unfold streakAux
    rw [h, if_pos rfl, ih]
    omega

/-- Witness for C2 at a concrete input: after 121 consecutive ticks in which
the only ship sits exactly on the Tutorial02 target at rest, the status is
Finished. -/
theorem hold_position_finish_behavior_witness :
    tutorial02Status
      (tutorial02Run ⟨0⟩
        (List.replicate 121 ⟨[0], fun _ => ⟨0, (200, 0), (0, 0)⟩⟩))
      ⟨[0], fun _ => ⟨0, (200, 0), (0, 0)⟩⟩ = Status.Finished := by
  have hall : ∀ st ∈ List.replicate 121
      (⟨[0], fun _ => ⟨0, (200, 0), (0, 0)⟩⟩ : SimState), st.shipHandles ≠ [] := by
    intro st hst
    rw [List.eq_of_mem_replicate hst]
    simp
  refine (hold_position_finish_behavior.2.1 _ _ hall).mpr ?_
  have hon : onTarget tutorial02Target
      (⟨[0], fun _ => ⟨0, (200, 0), (0, 0)⟩⟩ : SimState) = true := by
    norm_num [onTarget, firstShip, dist2, mag2, tutorial02Target]
  have hstreak : streak tutorial02Target
      (List.replicate 121 (⟨[0], fun _ => ⟨0, (200, 0), (0, 0)⟩⟩ : SimState)) = 121 := by
    unfold streak
    rw [List.reverse_replicate]
    exact streakAux_replicate _ _ hon 121
  rw [hstreak]
  omega

/-- C3 counterexample: Tutorial02::status is not a pure function of the
Simulation alone — with one and the same simulation state, two scenario
instances whose internal on_target_ticks counters are 0 and 121 report
Running and Finished respectively. -/
theorem status_world_purity_counterexample :
    ¬ (∀ (sc1 sc2 : Tutorial02State) (st : SimState),
        tutorial02Status sc1 st = tutorial02Status sc2 st) := by
  intro h
  have hc := h ⟨0⟩ ⟨121⟩ ⟨[], fun _ => ⟨0, (0, 0), (0, 0)⟩⟩
  simp [tutorial02Status] at hc

/-- C3 amended: status is a deterministic function of the scenario instance
state together with the World; Tutorial02's and Tutorial03's status read only
the instance's on_target_ticks counter, so any two Simulation states give the
same answer; a scenario that does not override status reports Running. -/
theorem status_deterministic_amended :
    (∀ st : SimState, scenarioDefaultStatus st = Status.Running)
    ∧ (∀ (sc : Tutorial02State) (st1 st2 : SimState),
        tutorial02Status sc st1 = tutorial02Status sc st2)
    ∧ (∀ (sc : Tutorial03State) (st1 st2 : SimState),
        tutorial03Status sc st1 = tutorial03Status sc st2) :=
  ⟨fun _ => rfl, fun _ _ _ => rfl, fun _ _ _ => rfl⟩

/-- The scenario implementations registered in scenario.rs `load`. -/
inductive ScenKind where
  | basic : ScenKind
  | asteroidField : ScenKind
  | bulletStress : ScenKind
  | welcome : ScenKind
  | tutorial01 : ScenKind
  | tutorial02 : ScenKind
  | tutorial03 : ScenKind
  | tutorial04 : ScenKind
deriving DecidableEq

/-- Scenario::name of each implementation, as returned by its name() method. -/
def scenKindName : ScenKind → String
  | .basic => "basic"
  | .asteroidField => "asteroid"
  | .bulletStress => "bullet-stress"
  | .welcome => "welcome"
  | .tutorial01 => "tutorial01"
  | .tutorial02 => "tutorial02"
  | .tutorial03 => "tutorial03"
  | .tutorial04 => "tutorial04"

/-- scenario.rs `load` (lines 73–87): match on the name, panic (none) on an
unknown name.  `load` receives no World and builds none: the panic happens
before any World mutation. -/
def load (name : String) : Option ScenKind :=
  if name = "basic" then some .basic
  else if name = "asteroid" then some .asteroidField
  else if name = "bullet-stress" then some .bulletStress
  else if name = "welcome" then some .welcome
  else if name = "tutorial01" then some .tutorial01
  else if name = "tutorial02" then some .tutorial02
  else if name = "tutorial03" then some .tutorial03
  else if name = "tutorial04" then some .tutorial04
  else none

/-- The registry keys accepted by `load`. -/
def registeredScenarioNames : List String :=
  ["basic", "asteroid", "bullet-stress", "welcome",
   "tutorial01", "tutorial02", "tutorial03", "tutorial04"]

/-- C5: for every registered name, load returns a scenario whose name()
equals the lookup key (this is also asserted in load itself), and for every
unknown name load panics (none) without having touched any World. -/
theorem load_name_contract :
    (∀ n ∈ registeredScenarioNames, ∃ sc, load n = some sc ∧ scenKindName sc = n)
    ∧ (∀ n : String, n ∉ registeredScenarioNames → load n = none) := by
  constructor
  · intro n hn
    fin_cases hn
    · exact ⟨ScenKind.basic, rfl, rfl⟩
    · exact ⟨ScenKind.asteroidField, by decide, rfl⟩
    · exact ⟨ScenKind.bulletStress, by decide, rfl⟩
    · exact ⟨ScenKind.welcome, by decide, rfl⟩
    · exact ⟨ScenKind.tutorial01, by decide, rfl⟩
    · exact ⟨ScenKind.tutorial02, by decide, rfl⟩
    · exact ⟨ScenKind.tutorial03, by decide, rfl⟩
    · exact ⟨ScenKind.tutorial04, by decide, rfl⟩
  · intro n hn
    simp only [registeredScenarioNames, List.mem_cons, List.mem_singleton] at hn
    push_neg at hn
    obtain ⟨h1, h2, h3, h4, h5, h6, h7, h8⟩ := hn
    simp [load, h1, h2, h3, h4, h5, h6, h7, h8]

/-- Witness for C5 at a concrete input: an unregistered name yields none
(the panic path). -/
theorem load_name_contract_witness : load "no-such-scenario" = none :=
  load_name_contract.2 "no-such-scenario" (by decide)

/-- Driver-level state of ui/mod.rs UI that feeds the physics-advance
decision: the quit/paused/finished flags, the single_steps counter, the
physics clock, the owned Simulation and the owned scenario instance.  Camera,
zoom, fps and status-div fields of the Rust struct are pure rendering
bookkeeping with no influence on stepping and are omitted. -/
structure UIState (Sim SState : Type) where
  quit : Bool
  paused : Bool
  finished : Bool
  singleSteps : Int
  physicsTime : ℚ
  sim : Sim
  scen : SState

/-- Per-frame inputs of UI::render: the wall-clock now, the effective key
presses that drive quit/pause/single-step, and the aggregate effect of the
manual ship-control keys (arrows, f, Shift-k) on the Simulation. -/
structure FrameInput (Sim : Type) where
  now : ℚ
  pressQ : Bool
  pressSpace : Bool
  pressN : Bool
  controls : Sim → Sim

/-- Result of one UI::render call: the successor state, whether sim.step()
was called, and whether renderer.render was called. -/
structure FrameResult (Sim SState : Type) where
  state : UIState Sim SState
  stepped : Bool
  rendered : Bool

/-- The scenario/simulation callbacks UI::render dispatches to. -/
structure UIEnv (Sim SState : Type) where
  status : SState → Sim → Status
  scenTick : SState → Sim → SState × Sim
  simStep : Sim → Sim
  dt : ℚ

/-- Paused flag after the space ("toggle pause") and n ("single step") key
handling of UI::render. -/
def pausedAfterKeys {Sim SState : Type} (u : UIState Sim SState)
    (inp : FrameInput Sim) : Bool :=
  if inp.pressN then true else if inp.pressSpace then !u.paused else u.paused

/-- single_steps counter after the space and n key handling of UI::render. -/
def stepsAfterKeys {Sim SState : Type} (u : UIState Sim SState)
    (inp : FrameInput Sim) : Int :=
  if inp.pressN then (if inp.pressSpace then 0 else u.singleSteps) + 1
  else (if inp.pressSpace then 0 else u.singleSteps)

/-- The Simulation as it stands when UI::render checks the scenario status:
manual ship controls have been applied unless paused. -/
def simAfterControls {Sim SState : Type} (u : UIState Sim SState)
    (inp : FrameInput Sim) : Sim :=
  if pausedAfterKeys u inp then u.sim else inp.controls u.sim

/-- UI::render (ui/mod.rs lines 83–219): early-return when quit; key handling
for pause/single-step/quit; manual controls when unpaused; latch finished
from the scenario status; advance physics (scenario.tick then sim.step) only
when not finished, not paused (or single-stepping) and the physics clock is
due; render afterwards in every non-quit frame. -/
def render {Sim SState : Type} (env : UIEnv Sim SState) (u : UIState Sim SState)
    (inp : FrameInput Sim) : FrameResult Sim SState :=
  if u.quit then ⟨u, false, false⟩
  else
    let paused2 := pausedAfterKeys u inp
    let steps2 := stepsAfterKeys u inp
    let quit2 := inp.pressQ
    let sim2 := simAfterControls u inp
    let pt2 := if paused2 then inp.now else u.physicsTime
    let finished2 := u.finished || decide (env.status u.scen sim2 = Status.Finished)
    if finished2 = false ∧ (paused2 = false ∨ steps2 > 0) then
      let pt3 := max pt2 (inp.now - env.dt * 2)
      if steps2 > 0 ∨ pt3 + env.dt < inp.now then
        let p := env.scenTick u.scen sim2
        let sim4 := env.simStep p.2
        let steps3 := if steps2 > 0 then steps2 - 1 else steps2
        ⟨⟨quit2, paused2, finished2, steps3, pt3 + env.dt, sim4, p.1⟩, true, true⟩
      else
        let steps3 := if steps2 > 0 then steps2 - 1 else steps2
        ⟨⟨quit2, paused2, finished2, steps3, pt3, sim2, u.scen⟩, false, true⟩
    else
      ⟨⟨quit2, paused2, finished2, steps2, pt2, sim2, u.scen⟩, false, true⟩

/-- Results of a sequence of UI::render frames from a starting state. -/
def uiTrace {Sim SState : Type} (env : UIEnv Sim SState) :
    UIState Sim SState → List (FrameInput Sim) → List (FrameResult Sim SState)
  | _, [] => []
  | u, inp :: rest =>
    let r := render env u inp
    r :: uiTrace env r.state rest

lemma render_keeps_finished {Sim SState : Type} (env : UIEnv Sim SState)
    (u : UIState Sim SState) (inp : FrameInput Sim) (h : u.finished = true) :
    (render env u inp).state.finished = true ∧ (render env u inp).stepped = false ∧
      ((render env u inp).rendered = true ∨ (render env u inp).state.quit = true) := by
  cases hq : u.quit with
  | true => simp [render, hq, h]
  | false => simp [render, hq, h]

/-- C4: the finished flag latches as soon as UI::render observes the scenario
status Finished, and from any finished state on, no later frame ever calls
sim.step() again while rendering continues on every frame that has not quit. -/
theorem finished_latch_stops_physics {Sim SState : Type} (env : UIEnv Sim SState) :
    (∀ (u : UIState Sim SState) (inp : FrameInput Sim),
        u.quit = false →
        env.status u.scen (simAfterControls u inp) = Status.Finished →
        (render env u inp).state.finished = true)
    ∧ (∀ (u : UIState Sim SState) (l : List (FrameInput Sim)), u.finished = true →
        ∀ r ∈ uiTrace env u l, r.state.finished = true ∧ r.stepped = false ∧
          (r.rendered = true ∨ r.state.quit = true)) := by
  constructor
  · intro u inp hq hst
    simp [render, hq, hst]
  · intro u l
    induction l generalizing u with
    | nil =>
      intro _ r hr
      cases hr
    | cons inp rest ih =>
      intro h r hr
      unfold uiTrace at hr
      rcases List.mem_cons.mp hr with hhead | htail
      · rw [hhead]
        exact render_keeps_finished env u inp h
      · exact ih (render env u inp).state
          (render_keeps_finished env u inp h).1 r htail

/-- Witness for C4 at a concrete input: with a status callback reporting
Finished, one render frame from an unfinished, unquit state latches the
finished flag. -/
theorem finished_latch_stops_physics_witness :
    (render (⟨fun _ _ => Status.Finished, fun _ _ => ((), ()), id, 1⟩ : UIEnv Unit Unit)
      ⟨false, false, false, 0, 0, (), ()⟩
      ⟨0, false, false, false, id⟩).state.finished = true :=
  (finished_latch_stops_physics
    (⟨fun _ _ => Status.Finished, fun _ _ => ((), ()), id, 1⟩ : UIEnv Unit Unit)).1
    ⟨false, false, false, 0, 0, (), ()⟩ ⟨0, false, false, false, id⟩ rfl rfl

/-- Modelled from the spec: the collision-group indices are declared in
src/simulation/mod.rs, which is not part of the source tree here; the spec
fixes only that ship, bullet and wall are three disjoint bitmask categories,
so three distinct indices are chosen. -/
def SHIP_COLLISION_GROUP : Nat := 0

/-- Modelled from the spec: see SHIP_COLLISION_GROUP. -/
def BULLET_COLLISION_GROUP : Nat := 1

/-- Modelled from the spec: see SHIP_COLLISION_GROUP. -/
def WALL_COLLISION_GROUP : Nat := 2

/-- The data of one wall body+collider inserted by add_walls: pose (rotation
recorded in units of pi, so 0, pi, pi/2, 3pi/2 become 0, 1, 1/2, 3/2), the
static body flag, cuboid half-extents, restitution, and the collider's
InteractionGroups memberships/filter bitmasks. -/
structure WallSpec where
  x : ℚ
  y : ℚ
  rotPi : ℚ
  isStatic : Bool
  halfLength : ℚ
  halfWidth : ℚ
  restitution : ℚ
  memberships : Nat
  filterBits : Nat

/-- The make_edge closure of add_walls (scenario.rs lines 49–65): a static
body at (x, y) with rotation a, carrying one cuboid collider of half-extents
(edge_length/2, edge_width/2), restitution 1.0, wall-group memberships and a
filter admitting ships and bullets. -/
def make_edge (worldSize x y a : ℚ) : WallSpec :=
  let edge_length := worldSize
  let edge_width : ℚ := 10
  { x := x, y := y, rotPi := a, isStatic := true,
    halfLength := edge_length / 2, halfWidth := edge_width / 2,
    restitution := 1,
    memberships := 1 <<< WALL_COLLISION_GROUP,
    filterBits := (1 <<< SHIP_COLLISION_GROUP) ||| (1 <<< BULLET_COLLISION_GROUP) }

/-- add_walls (scenario.rs lines 48–71): four edges at the four sides of the
world. -/
def add_walls (worldSize : ℚ) : List WallSpec :=
  [make_edge worldSize 0 (worldSize / 2) 0,
   make_edge worldSize 0 (-(worldSize / 2)) 1,
   make_edge worldSize (worldSize / 2) 0 (1 / 2),
   make_edge worldSize (-(worldSize / 2)) 0 (3 / 2)]

/-- The pairwise contact test of rapier InteractionGroups: two colliders
generate contacts iff each one's memberships intersect the other's filter. -/
def groupsInteract (m1 f1 m2 f2 : Nat) : Prop :=
  m1 &&& f2 ≠ 0 ∧ m2 &&& f1 ≠ 0

/-- Modelled from the spec: ship colliders (created in src/simulation/ship.rs,
not part of the source tree here) belong to the ship category and, per the
spec's contact rules, may contact ships, bullets and walls. -/
def shipColliderGroups : Nat × Nat :=
  (1 <<< SHIP_COLLISION_GROUP,
   (1 <<< SHIP_COLLISION_GROUP) ||| (1 <<< BULLET_COLLISION_GROUP) |||
     (1 <<< WALL_COLLISION_GROUP))

/-- Modelled from the spec: bullet colliders (created in
src/simulation/bullet.rs, not part of the source tree here) belong to the
bullet category and may contact ships and walls. -/
def bulletColliderGroups : Nat × Nat :=
  (1 <<< BULLET_COLLISION_GROUP,
   (1 <<< SHIP_COLLISION_GROUP) ||| (1 <<< WALL_COLLISION_GROUP))

lemma wall_groups_no_self :
    ¬ groupsInteract (1 <<< WALL_COLLISION_GROUP)
      ((1 <<< SHIP_COLLISION_GROUP) ||| (1 <<< BULLET_COLLISION_GROUP))
      (1 <<< WALL_COLLISION_GROUP)
      ((1 <<< SHIP_COLLISION_GROUP) ||| (1 <<< BULLET_COLLISION_GROUP)) := by
  unfold groupsInteract
  decide

lemma wall_groups_ship :
    groupsInteract (1 <<< WALL_COLLISION_GROUP)
      ((1 <<< SHIP_COLLISION_GROUP) ||| (1 <<< BULLET_COLLISION_GROUP))
      shipColliderGroups.1 shipColliderGroups.2 := by
  unfold groupsInteract
  decide

lemma wall_groups_bullet :
    groupsInteract (1 <<< WALL_COLLISION_GROUP)
      ((1 <<< SHIP_COLLISION_GROUP) ||| (1 <<< BULLET_COLLISION_GROUP))
      bulletColliderGroups.1 bulletColliderGroups.2 := by
  unfold groupsInteract
  decide

/-- C9: add_walls inserts exactly four static wall bodies at the four edges
of the world, each with one cuboid collider of restitution 1.0 and a
collision group under which walls contact ships and bullets but never other
walls. -/
theorem add_walls_four_static_edges (worldSize : ℚ) :
    (add_walls worldSize).length = 4
    ∧ (∀ w ∈ add_walls worldSize,
        w.isStatic = true ∧ w.restitution = 1 ∧
        w.halfLength = worldSize / 2 ∧ w.halfWidth = 5 ∧
        w.memberships = 1 <<< WALL_COLLISION_GROUP ∧
        w.filterBits = (1 <<< SHIP_COLLISION_GROUP) ||| (1 <<< BULLET_COLLISION_GROUP))
    ∧ ((add_walls worldSize).map (fun w => (w.x, w.y)) =
        [(0, worldSize / 2), (0, -(worldSize / 2)),
         (worldSize / 2, 0), (-(worldSize / 2), 0)])
    ∧ (∀ w1 ∈ add_walls worldSize, ∀ w2 ∈ add_walls worldSize,
        ¬ groupsInteract w1.memberships w1.filterBits w2.memberships w2.filterBits)
    ∧ (∀ w ∈ add_walls worldSize,
        groupsInteract w.memberships w.filterBits
          shipColliderGroups.1 shipColliderGroups.2
        ∧ groupsInteract w.memberships w.filterBits
          bulletColliderGroups.1 bulletColliderGroups.2) := by
  refine ⟨rfl, ?_, ?_, ?_, ?_⟩
  · intro w hw
    fin_cases hw <;> exact ⟨rfl, rfl, rfl, by norm_num [make_edge], rfl, rfl⟩
  · rfl
  · intro w1 hw1 w2 hw2
    fin_cases hw1 <;> fin_cases hw2 <;> exact wall_groups_no_self
  · intro w hw
    fin_cases hw <;> exact ⟨wall_groups_ship, wall_groups_bullet⟩

/-- Witness for C9 at a concrete input: in a 1000-unit world, the top wall
does not contact itself (wall-wall pairs are filtered out). -/
theorem add_walls_four_static_edges_witness :
    ¬ groupsInteract (make_edge 1000 0 (1000 / 2) 0).memberships
        (make_edge 1000 0 (1000 / 2) 0).filterBits
        (make_edge 1000 0 (1000 / 2) 0).memberships
        (make_edge 1000 0 (1000 / 2) 0).filterBits :=
  (add_walls_four_static_edges 1000).2.2.2.1
    (make_edge 1000 0 (1000 / 2) 0) (by simp [add_walls])
    (make_edge 1000 0 (1000 / 2) 0) (by simp [add_walls])

/-- A rigid body of the bullet test projected on the x-axis: position and
velocity. -/
structure Body1D where
  pos : ℚ
  vel : ℚ
deriving DecidableEq

/-- Modelled from the spec: the Simulation driven by tests/bullet_test.rs
(Simulation::new, add_ship, fire_weapon, step live in src/simulation/mod.rs,
ship.rs and bullet.rs, which are not part of the source tree here).  The test
scene lies on the x-axis: ship0 at -100 heading 0, ship1 at 100 heading pi,
both at rest, plus at most one bullet. -/
structure HitSim where
  ship0 : Body1D
  ship1 : Body1D
  bullet : Option Body1D
deriving DecidableEq

/-- Modelled from the spec: the initial world of the test — ship0 at (-100,0)
and ship1 at (100,0), both at rest, no bullet. -/
def hitSimNew : HitSim :=
  ⟨⟨-100, 0⟩, ⟨100, 0⟩, none⟩

/-- Modelled from the spec (section 4.2): firing spawns a bullet at the
ship's nose offset with velocity = ship velocity + muzzle velocity along
heading (heading 0 points toward +x), and firing is recoil-free (section
8.2): the shooter's own velocity is untouched. -/
def fire_weapon (muzzle noseOff : ℚ) (s : HitSim) : HitSim :=
  { s with bullet := some ⟨s.ship0.pos + noseOff, s.ship0.vel + muzzle⟩ }

/-- Modelled from the spec (sections 4.1 and 4.2): one fixed-timestep tick —
every body advances by velocity * dt, and a contact between the bullet and
ship1 (the bullet reaching ship1's position from the left) removes the bullet
and transfers an impulse to the struck ship, leaving the shooter alone. -/
def hitStep (dt impulse : ℚ) (s : HitSim) : HitSim :=
  let s0 : Body1D := ⟨s.ship0.pos + s.ship0.vel * dt, s.ship0.vel⟩
  let s1 : Body1D := ⟨s.ship1.pos + s.ship1.vel * dt, s.ship1.vel⟩
  match s.bullet with
  | none => ⟨s0, s1, none⟩
  | some b =>
    let bpos := b.pos + b.vel * dt
    if s1.pos ≤ bpos then ⟨s0, ⟨s1.pos, s1.vel + impulse⟩, none⟩
    else ⟨s0, s1, some ⟨bpos, b.vel⟩⟩

lemma hitStep_some (dt impulse : ℚ) (s : HitSim) (b : Body1D)
    (hb : s.bullet = some b) :
    hitStep dt impulse s =
      if s.ship1.pos + s.ship1.vel * dt ≤ b.pos + b.vel * dt then
        ⟨⟨s.ship0.pos + s.ship0.vel * dt, s.ship0.vel⟩,
         ⟨s.ship1.pos + s.ship1.vel * dt, s.ship1.vel + impulse⟩, none⟩
      else
        ⟨⟨s.ship0.pos + s.ship0.vel * dt, s.ship0.vel⟩,
         ⟨s.ship1.pos + s.ship1.vel * dt, s.ship1.vel⟩,
         some ⟨b.pos + b.vel * dt, b.vel⟩⟩ := by
  unfold hitStep
  rw [hb]

lemma hitStep_none (dt impulse : ℚ) (s : HitSim) (hb : s.bullet = none) :
    hitStep dt impulse s =
      ⟨⟨s.ship0.pos + s.ship0.vel * dt, s.ship0.vel⟩,
       ⟨s.ship1.pos + s.ship1.vel * dt, s.ship1.vel⟩, none⟩ := by
  unfold hitStep
  rw [hb]

lemma hitStep_invariant (dt muzzle noseOff impulse : ℚ)
    (hno : -100 + noseOff < 100) :
    ∀ n : Nat,
      ((hitStep dt impulse)^[n] (fire_weapon muzzle noseOff hitSimNew)).ship0.vel = 0
      ∧ ((((hitStep dt impulse)^[n] (fire_weapon muzzle noseOff hitSimNew)).bullet =
            some ⟨-100 + noseOff + (n : ℚ) * muzzle * dt, muzzle⟩
          ∧ -100 + noseOff + (n : ℚ) * muzzle * dt < 100
          ∧ ((hitStep dt impulse)^[n] (fire_weapon muzzle noseOff hitSimNew)).ship1 =
              ⟨100, 0⟩)
        ∨ (((hitStep dt impulse)^[n] (fire_weapon muzzle noseOff hitSimNew)).bullet = none
          ∧ ((hitStep dt impulse)^[n] (fire_weapon muzzle noseOff hitSimNew)).ship1.vel =
              impulse)) := by
  intro n
  induction n with
  | zero =>
    refine ⟨rfl, Or.inl ⟨?_, ?_, rfl⟩⟩
    · show (fire_weapon muzzle noseOff hitSimNew).bullet = _
      unfold fire_weapon hitSimNew
      norm_num
    · push_cast
      linarith
  | succ n ih =>
    obtain ⟨h0, hcase⟩ := ih
    rw [Function.iterate_succ_apply']
    rcases hcase with ⟨hb, hlt, hship1⟩ | ⟨hb, hvel⟩
    · rw [hitStep_some dt impulse _ _ hb, hship1]
      split_ifs with hhit
      · exact ⟨h0, Or.inr ⟨rfl, by norm_num⟩⟩
      · refine ⟨h0, Or.inl ⟨?_, ?_, ?_⟩⟩
        · simp only [Option.some.injEq, Body1D.mk.injEq]
          constructor
          · push_cast
            ring
          · trivial
        · have hhit2 :
              (-100 + noseOff + (n : ℚ) * muzzle * dt) + muzzle * dt < 100 := by
            simp only [not_le] at hhit
            norm_num at hhit
            linarith
          push_cast
          linarith
        · simp only [Body1D.mk.injEq]
          constructor
          · ring
          · trivial
    · rw [hitStep_none dt impulse _ hb]
      exact ⟨h0, Or.inr ⟨rfl, hvel⟩⟩

/-- C8: in the bullet test scene (ship0 at (-100,0), ship1 at (100,0),
both at rest), after ship0 fires and 1000 ticks elapse, ship0's velocity is
still 0 (recoil-free) and ship1's velocity is non-zero (the hit registered),
for any positive muzzle parameters under which the bullet spawns between the
ships and can cover the distance within 1000 ticks. -/
theorem bullet_test_hit (dt muzzle noseOff impulse : ℚ)
    (himp : impulse ≠ 0)
    (hno : -100 + noseOff < 100)
    (hreach : (100 : ℚ) ≤ -100 + noseOff + 1000 * muzzle * dt) :
    ((hitStep dt impulse)^[1000] (fire_weapon muzzle noseOff hitSimNew)).ship0.vel = 0
    ∧ ((hitStep dt impulse)^[1000] (fire_weapon muzzle noseOff hitSimNew)).ship1.vel ≠ 0 := by
  obtain ⟨h0, hcase⟩ := hitStep_invariant dt muzzle noseOff impulse hno 1000
  refine ⟨h0, ?_⟩
  rcases hcase with ⟨_, hlt, _⟩ | ⟨_, hvel⟩
  · exfalso
    push_cast at hlt
    linarith
  · rw [hvel]
    exact himp

/-- Witness for C8 at a concrete input: 60 ticks per second, muzzle velocity
1000, nose offset 10, unit impulse. -/
theorem bullet_test_hit_witness :
    ((hitStep (1 / 60) 1)^[1000] (fire_weapon 1000 10 hitSimNew)).ship0.vel = 0
    ∧ ((hitStep (1 / 60) 1)^[1000] (fire_weapon 1000 10 hitSimNew)).ship1.vel ≠ 0 :=
  bullet_test_hit (1 / 60) 1000 10 1 (by norm_num) (by norm_num) (by norm_num)

end Oort
